import Mathlib

/-!
Verification of the SAIW stress-journal guardrails subsystem.

Shallow embedding of `src/agent/guardrails.py` (class `Guardrails`) and of
the orchestration contract around it.  Text is modelled as `List Char`
(Python `str`, one entry per code point); Python code that can raise is
embedded with `Except PyError`.

Faithfulness notes recorded once here:
* `str.lower()` is modelled by `Char.toLower` (ASCII case folding).  All
  configured keywords are ASCII, so the two agree on every ASCII text.
* `str.strip()` strips Python's `str.isspace()` character set, modelled
  exactly by `pyIsSpace` below.
* In the source file `check_crisis` is defined twice (lines 113-171 and
  lines 228-274).  Python keeps the second definition only, so the live
  `check_crisis` is the one at lines 228-274.  The sole assignment to
  `self.harm_patterns` (line 160) sits in the dead first definition, and
  `__init__` does not assign it; hence `validate_input` raises
  `AttributeError` when it reaches `self.harm_patterns.get` (line 202).
  The embedding mirrors this: `validate_input` returns that error on every
  text surviving the three length checks, and the harm/medical regex
  tables, being unreachable, are not part of the embedding.
-/

namespace SAIW

/-- Python's `str.isspace()` character set (the set `str.strip()` removes):
`\t \n \v \f \r`, `\x1c`-`\x1f`, space, `\x85`, `\xa0`, U+1680,
U+2000-U+200A, U+2028, U+2029, U+202F, U+205F, U+3000. -/
def pyIsSpace (c : Char) : Bool :=
  let n := c.toNat
  (9 ≤ n && n ≤ 13) || (28 ≤ n && n ≤ 31) || n = 32 || n = 133 || n = 160 ||
    n = 5760 || (8192 ≤ n && n ≤ 8202) || n = 8232 || n = 8233 || n = 8239 ||
    n = 8287 || n = 12288

/-- Python `text.strip()`: whitespace removed from both ends. -/
def pyStrip (t : List Char) : List Char :=
  ((t.dropWhile pyIsSpace).reverse.dropWhile pyIsSpace).reverse

/-- Python `text.lower()` (ASCII case folding; the configured keywords are
all ASCII). -/
def lowerText (t : List Char) : List Char :=
  t.map Char.toLower

/-- A registered crisis callback: Python signature
`callback(crisis_type: str, text: str)`; it either returns or raises
(modelled as `Except`, the raised message carried as a `String`). -/
def Callback : Type :=
  String → List Char → Except String Unit

/-- The one exception the guardrail core itself can raise:
`validate_input`'s attribute lookup failure (see the header note). -/
inductive PyError where
  | attributeError (msg : String)
deriving DecidableEq, Repr

/-- Python `str(e)` for the embedded exception. -/
def PyError.toMessage : PyError → String
  | .attributeError m => m

/-- `guardrails.py` lines 45-51: `crisis_keywords["severe_self_harm"]`
(the duplicated "cut myself" entry is kept). -/
def kwSevereSelfHarm : List (List Char) :=
  [ "suicide".toList, "suicidal".toList, "kill myself".toList,
    "kill me".toList, "want to die".toList, "end it all".toList,
    "don't want to live".toList, "self-harm".toList, "self harm".toList,
    "cut myself".toList, "cut myself".toList, "hurt myself".toList,
    "stab myself".toList, "hang myself".toList, "poison myself".toList,
    "overdose".toList, "jump".toList ]

/-- `guardrails.py` lines 52-56: `crisis_keywords["severe_harm_others"]`. -/
def kwSevereHarmOthers : List (List Char) :=
  [ "hurt someone".toList, "kill someone".toList, "harm someone".toList,
    "violence".toList, "violent".toList, "attack".toList,
    "hit someone".toList, "punch someone".toList, "knife".toList,
    "gun".toList, "weapon".toList ]

/-- `guardrails.py` lines 57-60: `crisis_keywords["severe_crisis"]`. -/
def kwSevereCrisis : List (List Char) :=
  [ "hopeless".toList, "worthless".toList, "burden".toList,
    "better off dead".toList, "no point".toList, "nothing matters".toList,
    "give up".toList ]

/-- The mutable state of a `Guardrails` instance (`__init__`, lines 31-61).
`blocked_count` is the `defaultdict(int)` as an association list (no code
path ever writes to it). -/
structure Guardrails where
  blocked_count : List (String × Nat)
  crisis_detected_callbacks : List Callback
  crisis_helplines : List (String × String)
  kw_severe_self_harm : List (List Char)
  kw_severe_harm_others : List (List Char)
  kw_severe_crisis : List (List Char)

/-- `Guardrails.__init__`. -/
def Guardrails.init : Guardrails where
  blocked_count := []
  crisis_detected_callbacks := []
  crisis_helplines :=
    [("us", "988"), ("uk", "116 123"), ("eu", "+386 4 280 60 60"),
     ("generic", "988")]
  kw_severe_self_harm := kwSevereSelfHarm
  kw_severe_harm_others := kwSevereHarmOthers
  kw_severe_crisis := kwSevereCrisis

/-- `Guardrails.register_crisis_callback` (lines 63-70): appends to the
callback list. -/
def Guardrails.register_crisis_callback (g : Guardrails) (cb : Callback) :
    Guardrails :=
  { g with crisis_detected_callbacks := g.crisis_detected_callbacks ++ [cb] }

/-- One keyword scan of `check_crisis`: Python's
`any(keyword in text_lower for keyword in kws)` — the loop with `break`
sets the category iff some keyword is a substring. -/
def hasKeyword (kws : List (List Char)) (tl : List Char) : Bool :=
  kws.any fun kw => decide (kw <:+: tl)

/-- The category `check_crisis` (lines 240-264) detects: the three keyword
tables scanned in priority order on the lowered text, `none` when nothing
matches. -/
def checkCrisisType (g : Guardrails) (text : List Char) : Option String :=
  let tl := lowerText text
  if hasKeyword g.kw_severe_self_harm tl then some "severe_self_harm"
  else if hasKeyword g.kw_severe_harm_others tl then some "severe_harm_others"
  else if hasKeyword g.kw_severe_crisis tl then some "severe_crisis"
  else none

/-- Everything one call to `check_crisis` produces: the instance state after
the call, the outcome of each callback invocation (lines 266-272: each is
run inside `try/except`, so a raise is recorded, logged and never
propagated), and the returned pair `(is_crisis, crisis_type)` (line 274). -/
structure CrisisCall where
  state : Guardrails
  cbResults : List (Except String Unit)
  finding : Bool × String

/-- `Guardrails.check_crisis` (the live definition, lines 228-274). -/
def Guardrails.check_crisis (g : Guardrails) (text : List Char) : CrisisCall :=
  match checkCrisisType g text with
  | some ct =>
      { state := g
        cbResults := g.crisis_detected_callbacks.map fun cb => cb ct text
        finding := (true, ct) }
  | none => { state := g, cbResults := [], finding := (false, "") }

/-- Line 188. -/
def msgEmpty : List Char := "Input cannot be empty.".toList

/-- Line 192. -/
def msgTooLong : List Char :=
  "Input exceeds maximum length (5000 characters). Please shorten your message.".toList

/-- Line 196. -/
def msgTooShort : List Char :=
  "Input too short. Please provide more context.".toList

/-- The exception `validate_input` raises at line 202: `self.harm_patterns`
was never assigned (see the header note). -/
def harmPatternsError : PyError :=
  .attributeError "'Guardrails' object has no attribute 'harm_patterns'"

/-- `Guardrails.validate_input` (lines 173-226): the three length checks in
order, then the attribute access `self.harm_patterns.get` which raises
`AttributeError` (so the harm/medical regex branches and the final
`return True, ""` are unreachable). -/
def validate_input (text : List Char) : Except PyError (Bool × List Char) :=
  if text = [] ∨ pyStrip text = [] then .ok (false, msgEmpty)
  else if 5000 < text.length then .ok (false, msgTooLong)
  else if text.length ≤ 2 then .ok (false, msgTooShort)
  else .error harmPatternsError

/-- `get_crisis_response`, `crisis_messages["severe_self_harm"]`
(lines 83-91). -/
def crisisMsgSelfHarm : String :=
  "🚨 CRISIS ALERT: SELF-HARM/SUICIDE RISK DETECTED 🚨\n\nI'm deeply concerned about your safety. Please reach out for immediate support:\n\n📞 HELPLINE: 988 (US Suicide & Crisis Lifeline)\n   Text 'HELLO' to 741741 (Crisis Text Line)\n   International: findahelpline.com\n\nIf you're in immediate danger, please call emergency services (911 in US) or go to the nearest emergency room.\n\nYou matter, and help is available. Please reach out now."

/-- `get_crisis_response`, `crisis_messages["severe_harm_others"]`
(lines 92-100). -/
def crisisMsgHarmOthers : String :=
  "🚨 CRISIS ALERT: HARM TO OTHERS RISK DETECTED 🚨\n\nThis is a serious situation. Please reach out for immediate support:\n\n📞 HELPLINE: 988 (US Suicide & Crisis Lifeline)\n   Text 'HELLO' to 741741 (Crisis Text Line)\n   International: findahelpline.com\n\nIf someone is in immediate danger, please call emergency services (911 in US).\n\nSupport is available. Please reach out now."

/-- `get_crisis_response`, `crisis_messages["severe_crisis"]`
(lines 101-109). -/
def crisisMsgSevereCrisis : String :=
  "⚠️ CRISIS ALERT: SEVERE EMOTIONAL CRISIS DETECTED ⚠️\n\nI'm concerned about your emotional wellbeing. Please reach out for support:\n\n📞 HELPLINE: 988 (US Suicide & Crisis Lifeline)\n   Text 'HELLO' to 741741 (Crisis Text Line)\n   International: findahelpline.com\n\nTrained counselors are available 24/7 to listen and help.\n\nYou don't have to face this alone. Please reach out now."

/-- `Guardrails.get_crisis_response` (lines 72-111):
`crisis_messages.get(crisis_type, crisis_messages["severe_crisis"])` — a
three-key dictionary lookup that falls back to the `severe_crisis` message
on any other key. -/
def get_crisis_response (crisis_type : String) : String :=
  if crisis_type = "severe_self_harm" then crisisMsgSelfHarm
  else if crisis_type = "severe_harm_others" then crisisMsgHarmOthers
  else crisisMsgSevereCrisis

/-- The dictionary `check_content_safety` serialises (lines 300-314): either
the full report of lines 300-307, or the degraded `{"error": str(e),
"is_safe": False}` object of lines 311-314, which carries no `is_valid`,
`crisis_detected`, `crisis_type`, `crisis_message` or `validation_errors`
field. -/
inductive SafetyReport where
  | report (is_safe is_valid : Bool) (validation_errors : List (List Char))
      (crisis_detected : Bool) (crisis_type : Option String)
      (crisis_message : Option String)
  | degraded (error : String)
deriving DecidableEq

/-- The `is_safe` field of either report shape (the degraded object sets it
to `False` literally). -/
def SafetyReport.isSafe : SafetyReport → Bool
  | .report s _ _ _ _ _ => s
  | .degraded _ => false

/-- `Guardrails.check_content_safety` (lines 278-314): `validate_input`,
then `check_crisis`, assembled into the report; any exception from the
sub-checks is caught and turned into the degraded object.  Since
`validate_input` runs first, its `AttributeError` short-circuits to the
degraded object before `check_crisis` (and its callbacks) can run. -/
def Guardrails.check_content_safety (g : Guardrails) (text : List Char) :
    SafetyReport :=
  match validate_input text with
  | .error e => .degraded e.toMessage
  | .ok (is_valid, error_msg) =>
      let c := g.check_crisis text
      let is_crisis := c.finding.1
      let crisis_type := c.finding.2
      .report (is_valid && !is_crisis) is_valid
        (if is_valid = false ∧ error_msg ≠ [] then [error_msg] else [])
        is_crisis
        (if is_crisis then some crisis_type else none)
        (if is_crisis then some (get_crisis_response crisis_type) else none)

/-- Modelled from the spec: the generic user-safe message §4.5 prescribes
when the `process_entry` pipeline hits an unhandled exception ("a generic
user-safe error message is returned; the original exception is logged with
full context, never shown to the user"). -/
def genericErrorMsg : List Char :=
  "An unexpected error occurred. Please try again or contact support.".toList

/-- Modelled from the spec: the safe `process_entry` produced by
`create_safe_process_entry`, which `src/main.py` line 10 imports from
`agent.guardrails` but which is absent from `src/agent/guardrails.py`.
Per §4.5 it composes Validator (abort with the user-facing error text if
invalid) → Detector (on crisis abort with a sentinel, not an exception) →
memory / agent / output filter (external collaborators, modelled as the
opaque `agentRun`) and per §7 maps any unhandled exception to the generic
user-safe message.  The sentinel is Python `None` (the commented CLI at
`src/main.py` lines 123-126 branches on `response is None`), modelled as
`Option.none`; every non-crisis outcome is `some` text. -/
def process_entry (g : Guardrails) (agentRun : List Char → List Char)
    (text : List Char) : Option (List Char) :=
  match validate_input text with
  | .error _ => some genericErrorMsg
  | .ok (is_valid, error_msg) =>
      if is_valid = false then some error_msg
      else if (g.check_crisis text).finding.1 then none
      else some (agentRun text)

/-! ## Shared lemmas -/

/-- Any text that survives the three length checks of `validate_input`
reaches the `self.harm_patterns` access and raises `AttributeError`. -/
theorem validateInput_midrange (t : List Char) (hs : pyStrip t ≠ [])
    (h5 : t.length ≤ 5000) (h2 : 2 < t.length) :
    validate_input t = .error harmPatternsError := by
  have h1 : ¬(t = [] ∨ pyStrip t = []) := by
    rintro (rfl | h)
    · exact hs rfl
    · exact hs h
  simp only [validate_input, if_neg h1, if_neg (by omega : ¬5000 < t.length),
    if_neg (by omega : ¬t.length ≤ 2)]

/-- `check_crisis` hands back the instance unchanged: the live definition
assigns no attribute. -/
theorem check_crisis_state (g : Guardrails) (text : List Char) :
    (g.check_crisis text).state = g := by
  cases hct : checkCrisisType g text <;>
    simp [Guardrails.check_crisis, hct]

/-! ## Claims -/

/-- C1: the spec promises that every 3-to-5000-character text that is not
whitespace-only (and matches no harm/medical/crisis pattern) gets
`(valid, "")` back from `validate_input`; in the code every such text
instead raises `AttributeError('Guardrails' object has no attribute
'harm_patterns')`, because the only assignment to `self.harm_patterns`
lives in the dead first definition of `check_crisis`.  This theorem proves
the divergence for all such texts (the pattern hypotheses of the claim are
immaterial: the exception fires before any pattern is consulted). -/
theorem C1_validate_input_raises_attribute_error (t : List Char)
    (hs : pyStrip t ≠ []) (h5 : t.length ≤ 5000) (h2 : 2 < t.length) :
    validate_input t = .error harmPatternsError :=
  validateInput_midrange t hs h5 h2

/-- C1 witness: the spec's own "valid" scenario text raises instead of
returning `(valid, "")`. -/
theorem C1_witness :
    validate_input ("I had a stressful meeting at work".toList) =
      .error harmPatternsError :=
  C1_validate_input_raises_attribute_error
    ("I had a stressful meeting at work".toList)
    (by decide) (by decide) (by decide)

/-- C2: the claim states that every report of `check_content_safety`
satisfies `is_safe = is_valid && !crisis_detected`; but on every non-blank
text of length 3-5000 the `AttributeError` from `validate_input` sends
`check_content_safety` to its `except` branch, whose degraded object
`{"error": str(e), "is_safe": False}` carries no `is_valid` and no
`crisis_detected` field at all, so the stated identity cannot hold of it. -/
theorem C2_report_degraded_on_midrange_text (g : Guardrails) (t : List Char)
    (hs : pyStrip t ≠ []) (h5 : t.length ≤ 5000) (h2 : 2 < t.length) :
    g.check_content_safety t = .degraded harmPatternsError.toMessage := by
  unfold Guardrails.check_content_safety
  rw [validateInput_midrange t hs h5 h2]

/-- C2 witness: a concrete harmless text whose safety report is the
degraded object. -/
theorem C2_witness :
    Guardrails.init.check_content_safety ("hello".toList) =
      .degraded harmPatternsError.toMessage :=
  C2_report_degraded_on_midrange_text Guardrails.init ("hello".toList)
    (by decide) (by decide) (by decide)

/-- C3: any text containing (after lowering) a configured
`severe_self_harm` keyword is reported as `severe_self_harm`, whatever
else it contains: the `severe_self_harm` scan runs first and the two
lower-priority scans are guarded by `if not detected_crisis_type`. -/
theorem C3_self_harm_priority (g : Guardrails) (text kw : List Char)
    (hmem : kw ∈ g.kw_severe_self_harm) (hinf : kw <:+: lowerText text) :
    (g.check_crisis text).finding = (true, "severe_self_harm") := by
  have h : hasKeyword g.kw_severe_self_harm (lowerText text) = true := by
    unfold hasKeyword
    rw [List.any_eq_true]
    exact ⟨kw, hmem, by simpa using hinf⟩
  have hct : checkCrisisType g text = some "severe_self_harm" := by
    unfold checkCrisisType
    simp [h]
  unfold Guardrails.check_crisis
  rw [hct]

/-- C3 witness: a text containing a `severe_self_harm` keyword together
with a `severe_harm_others` keyword ("attack") and a `severe_crisis`
keyword ("give up") is still classified `severe_self_harm`. -/
theorem C3_witness :
    (Guardrails.init.check_crisis
        ("I want to end it all and attack and give up".toList)).finding =
      (true, "severe_self_harm") :=
  C3_self_harm_priority Guardrails.init
    ("I want to end it all and attack and give up".toList)
    ("end it all".toList) (by decide) (by decide)

/-- C4: when a crisis is detected, every registered callback is invoked in
registration order and each invocation's outcome — normal return or raise —
is contained by the per-callback `try/except` (the raise is recorded, never
propagated, and the loop continues); and the returned finding is the same
whatever the callback list, raising callbacks included. -/
theorem C4_callback_isolation (g : Guardrails) (text : List Char) (ct : String)
    (hct : checkCrisisType g text = some ct) :
    (g.check_crisis text).cbResults =
        g.crisis_detected_callbacks.map (fun cb => cb ct text)
    ∧ ∀ cbs : List Callback,
        (({ g with crisis_detected_callbacks := cbs } : Guardrails).check_crisis
            text).finding = (true, ct) := by
  constructor
  · unfold Guardrails.check_crisis
    rw [hct]
  · intro cbs
    have hct' : checkCrisisType
        ({ g with crisis_detected_callbacks := cbs } : Guardrails) text =
          some ct := by
      simpa [checkCrisisType] using hct
    unfold Guardrails.check_crisis
    rw [hct']

/-- C4 witness: with a raising callback registered first, the raise is
recorded, the second callback still runs, and the finding is unaffected. -/
theorem C4_witness :
    (((Guardrails.init.register_crisis_callback
          (fun _ _ => Except.error "boom")).register_crisis_callback
          (fun _ _ => Except.ok ())).check_crisis
        ("I feel hopeless".toList)).cbResults =
      ((Guardrails.init.register_crisis_callback
          (fun _ _ => Except.error "boom")).register_crisis_callback
          (fun _ _ => Except.ok ())).crisis_detected_callbacks.map
        (fun cb => cb "severe_crisis" ("I feel hopeless".toList)) :=
  (C4_callback_isolation
    ((Guardrails.init.register_crisis_callback
        (fun _ _ => Except.error "boom")).register_crisis_callback
        (fun _ _ => Except.ok ()))
    ("I feel hopeless".toList) "severe_crisis" (by decide)).1

/-- C5: the rejection order of `validate_input` is empty → too-long →
too-short, first match winning: `""` and `"  "` get the empty-input
message; a non-whitespace-only text longer than 5000 characters gets the
too-long message (the empty check cannot fire on it); a non-whitespace-only
text of length 1 or 2 gets the too-short message. -/
theorem C5_rejection_order :
    validate_input [] = .ok (false, msgEmpty)
    ∧ validate_input ("  ".toList) = .ok (false, msgEmpty)
    ∧ (∀ t : List Char, pyStrip t ≠ [] → 5000 < t.length →
        validate_input t = .ok (false, msgTooLong))
    ∧ (∀ t : List Char, pyStrip t ≠ [] → (t.length = 1 ∨ t.length = 2) →
        validate_input t = .ok (false, msgTooShort)) := by
  refine ⟨rfl, rfl, ?_, ?_⟩
  · intro t hs hl
    have h1 : ¬(t = [] ∨ pyStrip t = []) := by
      rintro (rfl | h)
      · exact hs rfl
      · exact hs h
    simp only [validate_input, if_neg h1, if_pos hl]
  · intro t hs hl
    have h1 : ¬(t = [] ∨ pyStrip t = []) := by
      rintro (rfl | h)
      · exact hs rfl
      · exact hs h
    simp only [validate_input, if_neg h1,
      if_neg (by omega : ¬5000 < t.length),
      if_pos (by omega : t.length ≤ 2)]

/-- C5 witness: the two-character text "ab" is rejected with the too-short
message. -/
theorem C5_witness :
    validate_input ("ab".toList) = .ok (false, msgTooShort) :=
  C5_rejection_order.2.2.2 ("ab".toList) (by decide) (.inr (by decide))

/-- C7: `check_content_safety` never lets a sub-check's exception escape:
whenever `validate_input` raises, the call is caught by the `except` branch
and the degraded report `{"error": str(e), "is_safe": False}` is returned
instead of the exception propagating.  (`check_crisis`, the other
sub-check, contains no raising operation of its own: its callback raises
are already consumed inside its loop.) -/
theorem C7_never_raises (g : Guardrails) (t : List Char) (e : PyError)
    (he : validate_input t = .error e) :
    g.check_content_safety t = .degraded e.toMessage
    ∧ (g.check_content_safety t).isSafe = false := by
  have hr : g.check_content_safety t = .degraded e.toMessage := by
    unfold Guardrails.check_content_safety
    rw [he]
  exact ⟨hr, by rw [hr]; rfl⟩

/-- C7 witness: on a concrete text whose validation raises, the report is
the degraded object and `is_safe` is false. -/
theorem C7_witness :
    Guardrails.init.check_content_safety ("I am fine today".toList) =
        .degraded harmPatternsError.toMessage
    ∧ (Guardrails.init.check_content_safety ("I am fine today".toList)).isSafe
        = false :=
  C7_never_raises Guardrails.init ("I am fine today".toList) harmPatternsError
    (by rfl)

/-- C8: the claim wants every crisis-flagged input to make `process_entry`
abort with the `None` sentinel; but on the text "I feel hopeless" — which
`check_crisis` classifies as a `severe_crisis` crisis — the pipeline's
validation stage raises `AttributeError` first, so the spec-modelled safe
orchestrator returns the generic error message, not the sentinel. -/
theorem C8_crisis_input_not_sentinel :
    (Guardrails.init.check_crisis ("I feel hopeless".toList)).finding =
        (true, "severe_crisis")
    ∧ process_entry Guardrails.init id ("I feel hopeless".toList) =
        some genericErrorMsg := by
  constructor
  · decide
  · rfl

/-- C9: the live `check_crisis` writes no attribute, so the instance state
— keyword tables, callback registry, helplines and blocked counter alike —
is what it was, and a second call on that state returns the same finding. -/
theorem C9_check_crisis_pure (g : Guardrails) (text : List Char) :
    (g.check_crisis text).state = g
    ∧ ((g.check_crisis text).state.check_crisis text).finding =
        (g.check_crisis text).finding := by
  refine ⟨check_crisis_state g text, ?_⟩
  rw [check_crisis_state g text]

/-- C10: `get_crisis_response` is a total dictionary lookup with the
`severe_crisis` message as default: every argument — the empty string and
unknown categories included — yields a non-empty message, and any argument
other than the three known categories yields the `severe_crisis` message. -/
theorem C10_crisis_response_total_defaulting (ct : String) :
    get_crisis_response ct ≠ ""
    ∧ (ct ∉ (["severe_self_harm", "severe_harm_others",
          "severe_crisis"] : List String) →
        get_crisis_response ct = crisisMsgSevereCrisis) := by
  constructor
  · unfold get_crisis_response
    by_cases h1 : ct = "severe_self_harm"
    · rw [if_pos h1]; decide
    · rw [if_neg h1]
      by_cases h2 : ct = "severe_harm_others"
      · rw [if_pos h2]; decide
      · rw [if_neg h2]; decide
  · intro hmem
    have n1 : ct ≠ "severe_self_harm" := by
      intro h; exact hmem (by rw [h]; decide)
    have n2 : ct ≠ "severe_harm_others" := by
      intro h; exact hmem (by rw [h]; decide)
    unfold get_crisis_response
    rw [if_neg n1, if_neg n2]

/-- C10 witness: the empty string is outside the three known categories and
gets the non-empty `severe_crisis` default message. -/
theorem C10_witness :
    get_crisis_response "" ≠ ""
    ∧ get_crisis_response "" = crisisMsgSevereCrisis :=
  ⟨(C10_crisis_response_total_defaulting "").1,
   (C10_crisis_response_total_defaulting "").2 (by decide)⟩

end SAIW
